import Mathlib

/-!
Verification of the Web_Scraper repository (src/scraper.py, src/models.py).

The development shallowly embeds the scraper pipeline:
  * an HTML DOM tree type standing for the tree BeautifulSoup builds
    (the string-to-tree parse itself is the external library; the embedding
    starts from the parsed tree, as the code does after line 12);
  * the DOM extractor parse_html;
  * the lightweight fetcher scrape_static, with network effects abstracted
    into an explicit outcome value;
  * the interactive renderer scrape_with_playwright, with the browser
    abstracted into an explicit page-behavior transition system;
  * the escalation controller scrape_smart.

BeautifulSoup semantics used by the embedding (from bs4/element.py):
  * Tag truthiness is always true (Tag defines a boolean conversion that
    returns True even for a childless tag); NavigableString truthiness is
    string non-emptiness.
  * Tag.string is the single child if the tag has exactly one child and it
    is a string, recursing through a single tag child, and None otherwise;
    in particular it is None for a childless tag such as an empty title.
  * find_all(names) returns matching tags in document (preorder) order;
    Tag.find searches descendants only, soup.find searches the whole tree.
  * get_text(sep, strip) joins descendant strings with sep; with strip=True
    each string is trimmed first and empty ones are dropped.
-/

namespace WebScraper

/-- HTML DOM node: a text node or an element with a name, attributes and
children. This models the tree BeautifulSoup produces from markup. -/
inductive Node where
  | text : String → Node
  | tag : String → List (String × String) → List Node → Node
deriving Repr

/-- A parsed document is the list of root nodes (the soup object's
top-level contents). -/
abbrev Soup := List Node

/-- Children of a node (a text node has none). -/
def childrenOf : Node → List Node
  | .text _ => []
  | .tag _ _ cs => cs

/-- Element name of a node (empty for a text node, which never occurs where
the code reads container.name). -/
def nameOf : Node → String
  | .text _ => ""
  | .tag n _ _ => n

/-- Python truthiness of a BeautifulSoup node: a Tag is always truthy, a
NavigableString is truthy iff non-empty. -/
def pyTruthy : Node → Bool
  | .text s => s ≠ ""
  | .tag _ _ _ => true

/-- Attribute lookup, modelling Tag.get / Tag[key]. -/
def attrOf (n : Node) (key : String) : Option String :=
  match n with
  | .text _ => none
  | .tag _ attrs _ => (attrs.find? (fun kv => kv.1 == key)).map (fun kv => kv.2)

/-- Does the node match a given element name (find_all only ever matches
element nodes, never text nodes). -/
def isTag (name : String) (n : Node) : Bool :=
  match n with
  | .tag nm _ _ => nm == name
  | .text _ => false

mutual
/-- Model of find_all on one subtree: preorder document-order traversal
testing every element node against the predicate. Matches bs4 find_all with
a name filter (text nodes are not considered). -/
def findAllNode (p : Node → Bool) : Node → List Node
  | .text _ => []
  | .tag nm a cs =>
      (if p (.tag nm a cs) then [Node.tag nm a cs] else []) ++ findAllIn p cs
/-- Model of find_all over a list of sibling subtrees. -/
def findAllIn (p : Node → Bool) : List Node → List Node
  | [] => []
  | n :: rest => findAllNode p n ++ findAllIn p rest
end

/-- Model of find: the first element of find_all, in document order. -/
def findFirst (p : Node → Bool) (ns : List Node) : Option Node :=
  (findAllIn p ns).head?

/-- Model of Tag.string: the single child if there is exactly one and it is
a string, recursing through a single element child; none otherwise. -/
def tagString : Node → Option String
  | .text s => some s
  | .tag _ _ cs =>
    match cs with
    | [c] => tagString c
    | _ => none

mutual
/-- Descendant text-node contents of one subtree, in document order (the
strings get_text joins). -/
def nodeStrings : Node → List String
  | .text s => [s]
  | .tag _ _ cs => allStringsIn cs
/-- Descendant text-node contents over a list of sibling subtrees. -/
def allStringsIn : List Node → List String
  | [] => []
  | n :: rest => nodeStrings n ++ allStringsIn rest
end

/-- Model of the Python string slice s[:n]: the first n characters. -/
def pyTake (s : String) (n : Nat) : String :=
  String.mk (s.toList.take n)

/-- Model of Python str.strip(): drop leading and trailing whitespace. -/
def pyStrip (s : String) : String :=
  String.mk (((s.toList.dropWhile Char.isWhitespace).reverse.dropWhile Char.isWhitespace).reverse)

/-- Model of Python str.lower(). -/
def pyLower (s : String) : String :=
  String.mk (s.toList.map Char.toLower)

/-- Accumulator pass for the whitespace splitter. -/
def splitWsAux : List Char → List Char → List String
  | [], acc => if acc.isEmpty then [] else [String.mk acc.reverse]
  | c :: r, acc =>
    if c.isWhitespace then
      (if acc.isEmpty then [] else [String.mk acc.reverse]) ++ splitWsAux r []
    else splitWsAux r (c :: acc)

/-- Model of Python str.split() with no argument: the maximal non-whitespace
runs, so no empty tokens. -/
def pySplitWs (s : String) : List String :=
  splitWsAux s.toList []

/-- Model of Tag.get_text(separator, strip): join descendant strings with
the separator; when strip is set, trim each string and drop empties. -/
def getText (sep : String) (strip : Bool) (n : Node) : String :=
  let ss := match n with
    | .text s => [s]
    | .tag _ _ cs => allStringsIn cs
  let ss := if strip then (ss.map pyStrip).filter (fun s => s ≠ "") else ss
  String.intercalate sep ss

/-- Model of the Python substring test (needle in hay). -/
def strContainsSub (hay needle : String) : Bool :=
  (List.range (hay.length + 1)).any (fun i => pyTake (String.mk (hay.toList.drop i)) needle.length == needle)

/-- Attribute rendering for the serializer below. -/
def renderAttrs : List (String × String) → String
  | [] => ""
  | kv :: rest => " " ++ kv.1 ++ "=" ++ kv.2 ++ renderAttrs rest

mutual
/-- Serialization of a node back to markup, modelling str(container). The
exact text bs4 produces differs in minor escaping details; the claims only
relate lengths and prefixes of this serialization to the stored rawHtml. -/
def render : Node → String
  | .text s => s
  | .tag nm attrs cs =>
      "<" ++ nm ++ renderAttrs attrs ++ ">" ++ renderChildren cs ++ "</" ++ nm ++ ">"
def renderChildren : List Node → String
  | [] => ""
  | c :: rest => render c ++ renderChildren rest
end

/-- Abstract model of urllib.parse.urljoin as used on line 59 and 63 of
scraper.py: absolute references are kept, others are resolved against the
base. The claims do not depend on the resolution details. -/
def urljoin (base href : String) : String :=
  if strContainsSub href "://" then href else base ++ href

/-- Data model from src/models.py: Meta. -/
structure Meta where
  title : String := ""
  description : String := ""
  language : String := "en"
  canonical : Option String := none
deriving Repr, DecidableEq, Inhabited

/-- Data model from src/models.py: Link. -/
structure Link where
  text : String
  href : String
deriving Repr, DecidableEq

/-- Data model from src/models.py: Image. -/
structure Image where
  src : String
  alt : String
deriving Repr, DecidableEq

/-- Data model from src/models.py: Content. The lists and tables fields are
carried through with default empty values; parse_html never assigns them,
and their element type is modelled as plainly as possible. -/
structure Content where
  headings : List String := []
  text : String := ""
  links : List Link := []
  images : List Image := []
  lists : List (List String) := []
  tables : List String := []
deriving Repr, DecidableEq, Inhabited

/-- Data model from src/models.py: Section. -/
structure Section where
  id : String
  type : String := "section"
  label : String
  sourceUrl : String
  content : Content
  rawHtml : String
  truncated : Bool := false
deriving Repr, DecidableEq

/-- Data model from src/models.py: Interactions. -/
structure Interactions where
  clicks : List String := []
  scrolls : Nat := 0
  pages : List String := []
deriving Repr, DecidableEq, Inhabited

/-- Data model from src/models.py: Error. -/
structure Error where
  message : String
  phase : String
deriving Repr, DecidableEq

/-- Data model from src/models.py: ScrapeResult (the Document of the spec). -/
structure ScrapeResult where
  url : String
  scrapedAt : String
  meta : Meta
  sections : List Section
  interactions : Interactions := {}
  errors : List Error := []
deriving Repr, DecidableEq

/-- Title extraction, scraper.py line 14: soup.title.string.strip() when a
title tag exists, else the empty string. When the title tag exists but its
string is None (childless title, or several children), the attribute access
on None raises; that raise is modelled as the error case. -/
def titleResult (soup : Soup) : Except String String :=
  match findFirst (isTag "title") soup with
  | none => .ok ""
  | some t =>
    match tagString t with
    | some s => .ok (pyStrip s)
    | none => .error "AttributeError: NoneType has no attribute strip"

/-- Description extraction, scraper.py lines 15-18: find meta[name=description],
else meta[property=og:description]; if found, its content attribute stripped. -/
def extractDescription (soup : Soup) : String :=
  let descTag :=
    match findFirst (fun n => isTag "meta" n && (attrOf n "name" == some "description")) soup with
    | some t => some t
    | none => findFirst (fun n => isTag "meta" n && (attrOf n "property" == some "og:description")) soup
  match descTag with
  | some t => pyStrip ((attrOf t "content").getD "")
  | none => ""

/-- Language extraction, scraper.py lines 20-23: the lang attribute of the
html element when present and non-empty (Python truthiness), else en. -/
def extractLanguage (soup : Soup) : String :=
  match findFirst (isTag "html") soup with
  | some t =>
    match attrOf t "lang" with
    | some l => if l == "" then "en" else l
    | none => "en"
  | none => "en"

/-- Canonical URL extraction, scraper.py lines 25-28: the href attribute of
link[rel=canonical] when such an element exists. -/
def extractCanonical (soup : Soup) : Option String :=
  match findFirst (fun n => isTag "link" n && (attrOf n "rel" == some "canonical")) soup with
  | some t => attrOf t "href"
  | none => none

/-- Structural tag set of the section discovery, scraper.py line 33. -/
def structuralNames : List String := ["header", "main", "section", "footer", "article", "nav"]

/-- Predicate for structural container elements. -/
def isStructural (n : Node) : Bool :=
  match n with
  | .tag nm _ _ => structuralNames.contains nm
  | .text _ => false

/-- All structural containers of the document, in document order
(scraper.py line 33). -/
def structuralContainers (soup : Soup) : List Node :=
  findAllIn isStructural soup

/-- Model of soup.body: the first body element of the document. -/
def bodyTag (soup : Soup) : Option Node :=
  findFirst (isTag "body") soup

/-- Container selection, scraper.py lines 33-35: all structural elements,
falling back to the body when none exist, or nothing without a body. -/
def selectContainers (soup : Soup) : List Node :=
  let cs := structuralContainers soup
  if cs.isEmpty then
    match bodyTag soup with
    | some b => [b]
    | none => []
  else cs

/-- Heading predicate h1/h2/h3, scraper.py line 43. -/
def isHeading3 (n : Node) : Bool :=
  isTag "h1" n || isTag "h2" n || isTag "h3" n

/-- Heading predicate h1-h4, scraper.py line 65. -/
def isHeading4 (n : Node) : Bool :=
  isHeading3 n || isTag "h4" n

/-- First h1/h2/h3 heading among the descendants of a container,
scraper.py line 43. -/
def firstHeading (c : Node) : Option Node :=
  findFirst isHeading3 (childrenOf c)

/-- Label derivation, scraper.py lines 42-48: text of the first heading
capped at 50 characters; otherwise the first 5 whitespace tokens of the
visible text, or the placeholder when that join is empty (Python or). -/
def sectionLabel (c : Node) : String :=
  match firstHeading c with
  | some h => pyTake (getText "" true h) 50
  | none =>
    let lbl := String.intercalate " " (List.take 5 (pySplitWs (getText "" true c)))
    if lbl == "" then "Empty Section" else lbl

/-- Section type derivation, scraper.py lines 50-53. -/
def secTypeOf (c : Node) : String :=
  if nameOf c == "nav" then "nav"
  else if nameOf c == "footer" then "footer"
  else if nameOf c == "header" then "header"
  else "section"

/-- Link collection, scraper.py lines 57-59: every anchor descendant with an
href; empty visible text becomes the literal link (Python or). -/
def sectionLinks (finalUrl : String) (c : Node) : List Link :=
  (findAllIn (fun n => isTag "a" n && (attrOf n "href").isSome) (childrenOf c)).map (fun a =>
    let t := getText "" true a
    { text := if t == "" then "link" else t
      href := urljoin finalUrl ((attrOf a "href").getD "") })

/-- Image collection, scraper.py lines 61-63. -/
def sectionImages (finalUrl : String) (c : Node) : List Image :=
  (findAllIn (fun n => isTag "img" n && (attrOf n "src").isSome) (childrenOf c)).map (fun i =>
    { src := urljoin finalUrl ((attrOf i "src").getD "")
      alt := (attrOf i "alt").getD "" })

/-- Length of the ellipsis marker appended on truncation, scraper.py line 72. -/
def ellipsisMarker : String := "..."

/-- Section construction for one container, scraper.py lines 42-83: the body
of the extraction loop for a container kept at index idx. -/
def mkSection (finalUrl : String) (idx : Nat) (c : Node) : Section :=
  let raw := render c
  { id := "sec-" ++ toString idx
    type := secTypeOf c
    label := sectionLabel c
    sourceUrl := finalUrl
    content :=
      { headings := (findAllIn isHeading4 (childrenOf c)).map (getText "" true)
        text := getText " " true c
        links := sectionLinks finalUrl c
        images := sectionImages finalUrl c }
    rawHtml := if raw.length > 1000 then pyTake raw 1000 ++ ellipsisMarker else raw
    truncated := decide (raw.length > 1000) }

/-- Section list construction, scraper.py lines 37-84: iterate over the
containers with a counter that advances only for containers that survive the
truthiness guard (if not container: continue). -/
def buildSections (finalUrl : String) (idx : Nat) : List Node → List Section
  | [] => []
  | c :: rest =>
    if pyTruthy c then mkSection finalUrl idx c :: buildSections finalUrl (idx + 1) rest
    else buildSections finalUrl idx rest

/-- Sections produced by the extractor for a document. -/
def extractSections (soup : Soup) (finalUrl : String) : List Section :=
  buildSections finalUrl 0 (selectContainers soup)

/-- DOM extractor, scraper.py lines 11-86 (parse_html). The only raising
path is the title access; every other field degrades to a default. -/
def parseHtml (soup : Soup) (finalUrl : String) : Except String (Meta × List Section) :=
  match titleResult soup with
  | .error e => .error e
  | .ok title =>
    .ok ({ title := title
           description := extractDescription soup
           language := extractLanguage soup
           canonical := extractCanonical soup },
         extractSections soup finalUrl)

/-- Outcome of the HTTP GET of the lightweight fetcher, scraper.py lines
92-96. The network is external; success carries the final post-redirect URL
and the parsed response body, failure carries the exception text raised by
the client or by raise_for_status (network error, non-2xx status, timeout). -/
inductive StaticOutcome where
  | success (finalUrl : String) (soup : Soup)
  | failure (msg : String)
deriving Repr

/-- Lightweight fetcher, scraper.py lines 89-115 (scrape_static). The whole
body sits in one try/except, so a raise from parse_html is also caught and
reported through the same fetch-phase error path. -/
def scrapeStatic (url scrapedAt : String) (outcome : StaticOutcome) : ScrapeResult :=
  match outcome with
  | .failure e =>
    { url := url, scrapedAt := scrapedAt, meta := {}, sections := []
      errors := [{ message := "Static error: " ++ e, phase := "fetch" }] }
  | .success finalUrl soup =>
    match parseHtml soup finalUrl with
    | .ok ms =>
      { url := url, scrapedAt := scrapedAt, meta := ms.1, sections := ms.2
        interactions := { pages := [finalUrl] }, errors := [] }
    | .error e =>
      { url := url, scrapedAt := scrapedAt, meta := {}, sections := []
        errors := [{ message := "Static error: " ++ e, phase := "fetch" }] }

/-- A load-more affordance as seen by the interaction loop, scraper.py lines
148-153: the first match of the query selector, with its visible text and
visibility. -/
structure MoreButton where
  text : String
  visible : Bool

/-- Snapshot of the rendered page the loop observes: current scroll height,
current URL, current DOM, and the query-selector result on the current DOM. -/
structure PageState where
  height : Nat
  url : String
  dom : Soup
  button : Option MoreButton

/-- Abstract behavior of the browser page across the interaction loop: the
state after navigation, the state transitions caused by a scroll-and-settle
and by a click, and which loop iterations raise at their first page call
(such an exception is swallowed by the per-iteration except, leaving the
iteration with no effect beyond the finally clause). -/
structure PageBehavior where
  init : PageState
  afterScroll : PageState → PageState
  afterClick : PageState → PageState
  failsAt : Nat → Bool

/-- Mutable state of the interaction loop, scraper.py lines 120-124:
the page, the scroll counter, the click descriptions and the visited set. -/
structure LoopState where
  page : PageState
  scrolls : Nat
  clicks : List String
  visited : List String

/-- Insertion into the visited-pages set (visited_pages.add). -/
def addVisited (xs : List String) (u : String) : List String :=
  if xs.contains u then xs else xs ++ [u]

/-- One iteration of the interaction loop, scraper.py lines 138-164: record
the height, scroll to the bottom, wait, count the scroll, and when the
height did not grow look for a visible more affordance and click it; any
exception is swallowed, and the finally clause records the current URL. -/
def loopIter (b : PageBehavior) (i : Nat) (s : LoopState) : LoopState :=
  if b.failsAt i then
    { s with visited := addVisited s.visited s.page.url }
  else
    let prevHeight := s.page.height
    let scrolled := b.afterScroll s.page
    let newHeight := scrolled.height
    let stepped :=
      if newHeight ≤ prevHeight then
        match scrolled.button with
        | some btn =>
          if btn.visible then
            (b.afterClick scrolled, s.clicks ++ ["Clicked button: " ++ pyTake btn.text 20])
          else (scrolled, s.clicks)
        | none => (scrolled, s.clicks)
      else (scrolled, s.clicks)
    { page := stepped.1
      scrolls := s.scrolls + 1
      clicks := stepped.2
      visited := addVisited s.visited stepped.1.url }

/-- The bounded interaction loop, scraper.py line 138: three sequential
iterations starting from the freshly navigated page, with the visited set
seeded with the requested URL (line 122). -/
def runLoop (b : PageBehavior) (url : String) : LoopState :=
  (List.range 3).foldl (fun s i => loopIter b i s)
    { page := b.init, scrolls := 0, clicks := [], visited := [url] }

/-- Outcome of the browser session of the interactive renderer. A fatal
case models an exception before any DOM is captured (launch failure and the
like, scraper.py line 185); the ok case carries the optional navigation
warning of lines 132-136 and the page behavior driving the loop. -/
inductive RenderOutcome where
  | fatal (msg : String)
  | ok (navWarning : Option String) (b : PageBehavior)

/-- Interactive renderer, scraper.py lines 118-192 (scrape_with_playwright).
After the loop the final DOM and URL are read from the page and extracted;
a raise from parse_html lands in the outer except, which discards the
navigation warnings and returns a single render-phase error. -/
def scrapeWithPlaywright (url scrapedAt : String) (outcome : RenderOutcome) : ScrapeResult :=
  match outcome with
  | .fatal e =>
    { url := url, scrapedAt := scrapedAt, meta := {}, sections := []
      errors := [{ message := "Playwright fatal error: " ++ e, phase := "render" }] }
  | .ok navWarning b =>
    let navErrors : List Error :=
      match navWarning with
      | some e => [{ message := "Navigation warning: " ++ e, phase := "render" }]
      | none => []
    let fin := runLoop b url
    match parseHtml fin.page.dom fin.page.url with
    | .ok ms =>
      { url := url, scrapedAt := scrapedAt, meta := ms.1, sections := ms.2
        interactions := { clicks := fin.clicks, scrolls := fin.scrolls, pages := fin.visited }
        errors := navErrors }
    | .error e =>
      { url := url, scrapedAt := scrapedAt, meta := {}, sections := []
        errors := [{ message := "Playwright fatal error: " ++ e, phase := "render" }] }

/-- Total text length over the sections, scraper.py line 199. -/
def totalTextLen (r : ScrapeResult) : Nat :=
  (r.sections.map (fun s => s.content.text.length)).sum

/-- Primary escalation condition, scraper.py line 200: errors present, thin
text, or missing title (Python truthiness of the errors list and the title). -/
def primaryEscalate (r : ScrapeResult) : Bool :=
  !r.errors.isEmpty || totalTextLen r < 200 || r.meta.title == ""

/-- Keyword list of the secondary heuristic, scraper.py line 208. -/
def interactionKeywords : List String := ["load more", "show more", "next page", "more articles"]

/-- All link texts across the sections, scraper.py lines 207 and 210. -/
def allLinkTexts (r : ScrapeResult) : List String :=
  (r.sections.map (fun s => s.content.links.map (fun l => l.text))).flatten

/-- Exact More detection, scraper.py line 210: some link text whose strip
equals the literal More, compared case-sensitively. -/
def hasExactMore (r : ScrapeResult) : Bool :=
  (allLinkTexts r).any (fun t => pyStrip t == "More")

/-- Keyword cue detection, scraper.py lines 207-211: some lowercased link
text containing one of the keywords as a substring. -/
def hasInteractionCues (r : ScrapeResult) : Bool :=
  (allLinkTexts r).any (fun t => interactionKeywords.any (fun k => strContainsSub (pyLower t) k))

/-- The secondary escalation condition as the code computes it,
scraper.py line 213. -/
def codeCue (r : ScrapeResult) : Bool :=
  hasInteractionCues r || hasExactMore r

/-- Escalation controller, scraper.py lines 195-219 (scrape_smart): run the
lightweight fetcher, escalate on the primary condition (appending the static
errors to the rendered document when there were any), otherwise escalate on
the secondary link-cue heuristic (without touching errors), otherwise return
the static result unchanged. -/
def scrapeSmart (url scrapedAt : String) (so : StaticOutcome) (ro : RenderOutcome) : ScrapeResult :=
  let staticResult := scrapeStatic url scrapedAt so
  if primaryEscalate staticResult then
    let jsResult := scrapeWithPlaywright url scrapedAt ro
    if !staticResult.errors.isEmpty then
      { jsResult with errors := jsResult.errors ++ staticResult.errors }
    else jsResult
  else if codeCue staticResult then
    scrapeWithPlaywright url scrapedAt ro
  else staticResult

/-- Cue predicate following the words of the specification (refinement
comparison for the secondary heuristic): a case-insensitive exact match on
the literal More, or case-insensitive containment of one of the keywords. -/
def specCue (r : ScrapeResult) : Bool :=
  (allLinkTexts r).any (fun t =>
    pyLower t == "more" || interactionKeywords.any (fun k => strContainsSub (pyLower t) k))

/-- Indexed map with an explicit starting index, used to state that the
section list is exactly one section per container in document order. -/
def listMapIdxFrom (f : Nat → α → β) : Nat → List α → List β
  | _, [] => []
  | i, a :: l => f i a :: listMapIdxFrom f (i + 1) l

/-- Length of the indexed map. -/
theorem listMapIdxFrom_length (f : Nat → α → β) : ∀ (i : Nat) (l : List α),
    (listMapIdxFrom f i l).length = l.length := by
  intro i l
  induction l generalizing i with
  | nil => rfl
  | cons a l ih => simp [listMapIdxFrom, ih]

/-- Every node returned by the find_all model satisfies the predicate
(size-bounded strong induction over the two traversal functions). -/
theorem mem_findAll_aux (p : Node → Bool) : ∀ (k : Nat),
    (∀ (n : Node), sizeOf n ≤ k → ∀ x ∈ findAllNode p n, p x = true)
    ∧ (∀ (ns : List Node), sizeOf ns ≤ k → ∀ x ∈ findAllIn p ns, p x = true) := by
  intro k
  induction k with
  | zero =>
    constructor
    · intro n h; exfalso; cases n <;> simp at h
    · intro ns h; exfalso; cases ns <;> simp at h
  | succ k ih =>
    constructor
    · intro n h x hx
      cases n with
      | text s => simp [findAllNode] at hx
      | tag nm a cs =>
        rw [findAllNode] at hx
        rcases List.mem_append.mp hx with h1 | h2
        · by_cases hp : p (.tag nm a cs) = true
          · simp [hp] at h1; subst h1; exact hp
          · simp [Bool.not_eq_true] at hp; simp [hp] at h1
        · refine ih.2 cs ?_ x h2
          simp at h; omega
    · intro ns h x hx
      cases ns with
      | nil => simp [findAllIn] at hx
      | cons n rest =>
        rw [findAllIn] at hx
        rcases List.mem_append.mp hx with h1 | h2
        · refine ih.1 n ?_ x h1
          simp at h; omega
        · refine ih.2 rest ?_ x h2
          simp at h; omega

/-- Wrapper for the find_all membership lemma. -/
theorem mem_findAllIn (p : Node → Bool) (ns : List Node) (n : Node)
    (h : n ∈ findAllIn p ns) : p n = true :=
  (mem_findAll_aux p (sizeOf ns)).2 ns le_rfl n h

/-- The first find result satisfies the predicate. -/
theorem findFirst_prop (p : Node → Bool) (ns : List Node) (n : Node)
    (h : findFirst p ns = some n) : p n = true := by
  unfold findFirst at h
  cases hl : findAllIn p ns with
  | nil => rw [hl] at h; simp at h
  | cons a l =>
    rw [hl] at h
    simp at h
    subst h
    exact mem_findAllIn p ns a (by rw [hl]; exact List.mem_cons_self a l)

/-- A structural container is an element node, hence truthy. -/
theorem pyTruthy_of_structural (n : Node) (h : isStructural n = true) : pyTruthy n = true := by
  cases n with
  | text s => simp [isStructural] at h
  | tag nm a cs => rfl

/-- A named-tag match is an element node, hence truthy. -/
theorem pyTruthy_of_isTag (name : String) (n : Node) (h : isTag name n = true) :
    pyTruthy n = true := by
  cases n with
  | text s => simp [isTag] at h
  | tag nm a cs => rfl

/-- When every container is truthy, the extraction loop keeps each one and
numbers them consecutively. -/
theorem buildSections_all_truthy (u : String) : ∀ (i : Nat) (cs : List Node),
    (∀ c ∈ cs, pyTruthy c = true) →
    buildSections u i cs = listMapIdxFrom (mkSection u) i cs := by
  intro i cs
  induction cs generalizing i with
  | nil => intro _; rfl
  | cons c rest ih =>
    intro h
    have hc := h c (List.mem_cons_self c rest)
    simp [buildSections, hc, listMapIdxFrom]
    exact ih (i + 1) (fun x hx => h x (List.mem_cons_of_mem c hx))

/-- Every produced section comes from some container of the worklist. -/
theorem mem_buildSections (u : String) : ∀ (i : Nat) (cs : List Node) (sec : Section),
    sec ∈ buildSections u i cs → ∃ idx c, c ∈ cs ∧ sec = mkSection u idx c := by
  intro i cs
  induction cs generalizing i with
  | nil => intro sec h; simp [buildSections] at h
  | cons c rest ih =>
    intro sec h
    rw [buildSections] at h
    by_cases hc : pyTruthy c = true
    · rw [if_pos hc] at h
      rcases List.mem_cons.mp h with h1 | h2
      · exact ⟨i, c, List.mem_cons_self c rest, h1⟩
      · rcases ih (i + 1) sec h2 with ⟨idx, c2, hmem, heq⟩
        exact ⟨idx, c2, List.mem_cons_of_mem c hmem, heq⟩
    · rw [if_neg hc] at h
      rcases ih i sec h with ⟨idx, c2, hmem, heq⟩
      exact ⟨idx, c2, List.mem_cons_of_mem c hmem, heq⟩

/-- A successful parse returns exactly the extracted section list. -/
theorem parseHtml_ok_sections (soup : Soup) (url : String) (m : Meta) (s : List Section)
    (h : parseHtml soup url = .ok (m, s)) : s = extractSections soup url := by
  unfold parseHtml at h
  cases ht : titleResult soup with
  | error e => rw [ht] at h; simp at h
  | ok title => rw [ht] at h; simp at h; exact h.2.symm

/-- Length of the Python slice model. -/
theorem pyTake_length (s : String) (n : Nat) : (pyTake s n).length = min n s.length := by
  show (s.toList.take n).length = min n s.length
  rw [List.length_take]
  rfl

/-- Document with a childless title element: well-formed markup on which the
title access of scraper.py line 14 dereferences None. -/
def emptyTitleSoup : Soup :=
  [Node.tag "html" []
    [Node.tag "head" [] [Node.tag "title" [] []],
     Node.tag "body" [] [Node.text "ok"]]]

/-- C2: the claim says parse_html returns a (Meta, Sections) pair without
raising for every input. The code contradicts it: on a document whose title
element has no single string child, soup.title.string is None and the strip
call on line 14 raises AttributeError. The embedding records that raise as
the error case, reached here on a concrete well-formed document. -/
theorem parseHtml_raises_on_childless_title :
    parseHtml emptyTitleSoup "https://e.example/" =
      .error "AttributeError: NoneType has no attribute strip" := by rfl

/-- C8: the claim says that on fetch success scrape_static returns the
extracted document with pages set to the final URL and no errors. The code
diverges when extraction raises (the childless-title crash of line 14): the
raise is caught by the except of line 108, and the function returns the
default document with a single fetch-phase error even though the HTTP fetch
succeeded. This theorem evaluates the code at that failing input. -/
theorem scrapeStatic_parse_crash_divergence :
    scrapeStatic "https://req.example/" "2024-01-01T00:00:00+00:00"
        (.success "https://fin.example/" emptyTitleSoup) =
      { url := "https://req.example/", scrapedAt := "2024-01-01T00:00:00+00:00"
        meta := {}, sections := [], interactions := {}
        errors := [{ message := "Static error: AttributeError: NoneType has no attribute strip"
                     phase := "fetch" }] } := by rfl

/-- One stalled loop iteration: no raise, the page did not grow, and the
selector finds nothing, so the iteration only scrolls and records the URL. -/
theorem loopIter_stalled (b : PageBehavior) (i : Nat) (s : LoopState)
    (hfail : b.failsAt i = false)
    (hh : (b.afterScroll s.page).height ≤ s.page.height)
    (hb : (b.afterScroll s.page).button = none) :
    loopIter b i s =
      { page := b.afterScroll s.page, scrolls := s.scrolls + 1,
        clicks := s.clicks, visited := addVisited s.visited (b.afterScroll s.page).url } := by
  simp [loopIter, hfail, hb, hh]

/-- C9: the interaction loop always terminates; on a page whose scroll
height never increases and which offers no more affordance, it performs
exactly 3 scroll iterations (scrolls counter 3) and performs no click, and
the function returns normally (the loop is a total function of the page
behavior). -/
theorem interaction_loop_three_scrolls (b : PageBehavior) (u : String)
    (hfail : ∀ i, b.failsAt i = false)
    (hh : ∀ s, (b.afterScroll s).height ≤ s.height)
    (hb : ∀ s, (b.afterScroll s).button = none) :
    (runLoop b u).scrolls = 3 ∧ (runLoop b u).clicks = [] := by
  have h3 : List.range 3 = [0, 1, 2] := rfl
  rw [runLoop, h3]
  simp only [List.foldl]
  rw [loopIter_stalled b 0 _ (hfail 0) (hh _) (hb _)]
  rw [loopIter_stalled b 1 _ (hfail 1) (hh _) (hb _)]
  rw [loopIter_stalled b 2 _ (hfail 2) (hh _) (hb _)]
  exact ⟨rfl, rfl⟩

/-- Concrete stalled page for the loop witness. -/
def stalledPage : PageState :=
  { height := 100, url := "https://r.example/", dom := [], button := none }

/-- Concrete behavior that never grows, never offers a button, never raises. -/
def stalledBehavior : PageBehavior :=
  { init := stalledPage
    afterScroll := fun s => { s with button := none }
    afterClick := fun s => s
    failsAt := fun _ => false }

/-- Witness for C9 at a concrete stalled page. -/
theorem interaction_loop_three_scrolls_witness :
    (runLoop stalledBehavior "https://r.example/").scrolls = 3
    ∧ (runLoop stalledBehavior "https://r.example/").clicks = [] :=
  interaction_loop_three_scrolls stalledBehavior "https://r.example/"
    (fun _ => rfl) (fun _ => le_refl _) (fun _ => rfl)

/-- C7: whenever the lightweight attempt produced errors (which always
escalates), every one of them is appended after the rendered document's own
errors in the returned document; nothing is dropped. -/
theorem scrapeSmart_preserves_static_errors (url t : String) (so : StaticOutcome)
    (ro : RenderOutcome) (h : (scrapeStatic url t so).errors ≠ []) :
    (scrapeSmart url t so ro).errors =
      (scrapeWithPlaywright url t ro).errors ++ (scrapeStatic url t so).errors := by
  have hne : (scrapeStatic url t so).errors.isEmpty = false := by
    cases hl : (scrapeStatic url t so).errors with
    | nil => exact absurd hl h
    | cons a l => rfl
  have hp : primaryEscalate (scrapeStatic url t so) = true := by
    unfold primaryEscalate
    rw [hne]
    rfl
  simp [scrapeSmart, hp, hne]

/-- Witness for C7: a failed fetch and a fatal render at concrete inputs. -/
theorem scrapeSmart_preserves_static_errors_witness :
    (scrapeSmart "https://u.example/" "t0" (.failure "boom") (.fatal "crash")).errors =
      (scrapeWithPlaywright "https://u.example/" "t0" (.fatal "crash")).errors ++
        (scrapeStatic "https://u.example/" "t0" (.failure "boom")).errors :=
  scrapeSmart_preserves_static_errors "https://u.example/" "t0" (.failure "boom")
    (.fatal "crash") (by decide)

/-- A result whose primary escalation condition is false has no errors
(the first disjunct of line 200 would otherwise fire). -/
theorem errors_nil_of_not_primary (r : ScrapeResult)
    (hp : primaryEscalate r = false) : r.errors = [] := by
  unfold primaryEscalate at hp
  cases hl : r.errors with
  | nil => rfl
  | cons a l => rw [hl] at hp; simp at hp

/-- C1: the escalation controller invokes the renderer and returns its
document exactly when the lightweight attempt had errors, thin text, an
empty title, or a link cue; the returned document is the rendered one with
the static errors appended (a no-op append when there were none), and when
no condition holds the static document is returned unchanged, independently
of the renderer (no render invocation). -/
theorem scrapeSmart_escalation (url t : String) (so : StaticOutcome) (ro : RenderOutcome) :
    ((primaryEscalate (scrapeStatic url t so) || codeCue (scrapeStatic url t so)) = true →
        scrapeSmart url t so ro =
          { scrapeWithPlaywright url t ro with
            errors := (scrapeWithPlaywright url t ro).errors ++ (scrapeStatic url t so).errors })
    ∧ ((primaryEscalate (scrapeStatic url t so) || codeCue (scrapeStatic url t so)) = false →
        scrapeSmart url t so ro = scrapeStatic url t so) := by
  constructor
  · intro h
    by_cases hp : primaryEscalate (scrapeStatic url t so) = true
    · by_cases he : (scrapeStatic url t so).errors.isEmpty = true
      · have h0 : (scrapeStatic url t so).errors = [] := by
          cases hl : (scrapeStatic url t so).errors with
          | nil => rfl
          | cons a l => rw [hl] at he; simp at he
        simp [scrapeSmart, hp, he]
        rw [h0, List.append_nil]
      · have he2 : (scrapeStatic url t so).errors.isEmpty = false := by
          cases hb : (scrapeStatic url t so).errors.isEmpty
          · rfl
          · exact absurd hb he
        simp [scrapeSmart, hp, he2]
    · have hp2 : primaryEscalate (scrapeStatic url t so) = false := by
        cases hb : primaryEscalate (scrapeStatic url t so)
        · rfl
        · exact absurd hb hp
      have hc : codeCue (scrapeStatic url t so) = true := by
        rw [hp2] at h; simpa using h
      have h0 : (scrapeStatic url t so).errors = [] := errors_nil_of_not_primary _ hp2
      simp [scrapeSmart, hp2, hc]
      rw [h0, List.append_nil]
  · intro h
    have hp : primaryEscalate (scrapeStatic url t so) = false := by
      cases hb : primaryEscalate (scrapeStatic url t so)
      · rfl
      · rw [hb] at h; simp at h
    have hc : codeCue (scrapeStatic url t so) = false := by
      rw [hp] at h; simpa using h
    simp [scrapeSmart, hp, hc]

/-- A 210-character text run, long enough to pass the 200-character
sufficiency threshold. -/
def longText : String := String.mk (List.replicate 210 'a')

/-- Document that the sufficiency heuristic accepts: a title, more than 200
characters of text, and one unremarkable link. -/
def goodSoup : Soup :=
  [Node.tag "html" []
    [Node.tag "head" [] [Node.tag "title" [] [Node.text "T"]],
     Node.tag "body" []
       [Node.tag "main" []
         [Node.text longText,
          Node.tag "a" [("href", "/next-article")] [Node.text "go"]]]]]

set_option maxRecDepth 20000 in
/-- Witness for C1: a failed fetch escalates with the static error appended;
a sufficient static result is returned unchanged. -/
theorem scrapeSmart_escalation_witness :
    (scrapeSmart "https://u.example/" "t0" (.failure "boom") (.fatal "crash") =
      { scrapeWithPlaywright "https://u.example/" "t0" (.fatal "crash") with
        errors := (scrapeWithPlaywright "https://u.example/" "t0" (.fatal "crash")).errors ++
          (scrapeStatic "https://u.example/" "t0" (.failure "boom")).errors })
    ∧ (scrapeSmart "https://u.example/" "t0" (.success "https://f.example/" goodSoup) (.fatal "crash") =
        scrapeStatic "https://u.example/" "t0" (.success "https://f.example/" goodSoup)) :=
  ⟨(scrapeSmart_escalation "https://u.example/" "t0" (.failure "boom") (.fatal "crash")).1 (by rfl),
   (scrapeSmart_escalation "https://u.example/" "t0" (.success "https://f.example/" goodSoup)
      (.fatal "crash")).2 (by rfl)⟩

/-- C3: a successful extraction returns exactly one section per structural
container, in document order with consecutive ids (nested matches counted
independently); with no structural container it returns one section for the
body, or none without a body. -/
theorem parseHtml_sections_per_container (soup : Soup) (url : String) (m : Meta)
    (s : List Section) (h : parseHtml soup url = .ok (m, s)) :
    (structuralContainers soup ≠ [] →
        s = listMapIdxFrom (mkSection url) 0 (structuralContainers soup)
        ∧ s.length = (structuralContainers soup).length)
    ∧ (structuralContainers soup = [] → ∀ b, bodyTag soup = some b →
        s = [mkSection url 0 b])
    ∧ (structuralContainers soup = [] → bodyTag soup = none → s = []) := by
  have hs : s = extractSections soup url := parseHtml_ok_sections soup url m s h
  subst hs
  refine ⟨?_, ?_, ?_⟩
  · intro hne
    have he : (structuralContainers soup).isEmpty = false := by
      cases hl : structuralContainers soup with
      | nil => exact absurd hl hne
      | cons a l => rfl
    have hsel : selectContainers soup = structuralContainers soup := by
      simp [selectContainers, he]
    have htr : ∀ c ∈ structuralContainers soup, pyTruthy c = true := fun c hc =>
      pyTruthy_of_structural c (mem_findAllIn _ _ c hc)
    constructor
    · unfold extractSections
      rw [hsel]
      exact buildSections_all_truthy url 0 _ htr
    · unfold extractSections
      rw [hsel, buildSections_all_truthy url 0 _ htr, listMapIdxFrom_length]
  · intro hemp b hb
    have he : (structuralContainers soup).isEmpty = true := by rw [hemp]; rfl
    have hbt : pyTruthy b = true := pyTruthy_of_isTag "body" b (findFirst_prop _ _ _ hb)
    have hsel : selectContainers soup = [b] := by
      simp [selectContainers, he, bodyTag] at hb ⊢
      simp [hb]
    unfold extractSections
    rw [hsel]
    simp [buildSections, hbt]
  · intro hemp hb
    have he : (structuralContainers soup).isEmpty = true := by rw [hemp]; rfl
    have hsel : selectContainers soup = [] := by
      simp [selectContainers, he, bodyTag] at hb ⊢
      simp [hb]
    unfold extractSections
    rw [hsel]
    rfl

/-- Small document with a nested structural container: main holding a
section, so find_all matches both in document order. -/
def w3soup : Soup := [Node.tag "main" [] [Node.tag "section" [] [Node.text "x"]]]

/-- Witness for C3 at a concrete document with nested containers. -/
theorem parseHtml_sections_per_container_witness :
    (structuralContainers w3soup ≠ [] →
        extractSections w3soup "https://w.example/" =
          listMapIdxFrom (mkSection "https://w.example/") 0 (structuralContainers w3soup)
        ∧ (extractSections w3soup "https://w.example/").length =
            (structuralContainers w3soup).length)
    ∧ (structuralContainers w3soup = [] → ∀ b, bodyTag w3soup = some b →
        extractSections w3soup "https://w.example/" = [mkSection "https://w.example/" 0 b])
    ∧ (structuralContainers w3soup = [] → bodyTag w3soup = none →
        extractSections w3soup "https://w.example/" = []) :=
  parseHtml_sections_per_container w3soup "https://w.example/"
    { title := "", description := "", language := "en", canonical := none }
    (extractSections w3soup "https://w.example/") (by rfl)

/-- C5: every section of a successful extraction is built from a container
whose serialization determines rawHtml: the stored rawHtml never exceeds
1000 characters plus the ellipsis marker, truncated is set exactly when the
serialization exceeds 1000 characters, and in that case rawHtml is the
first 1000 characters followed by the marker, otherwise the serialization
itself. -/
theorem rawHtml_truncation_bound (soup : Soup) (url : String) (m : Meta)
    (s : List Section) (h : parseHtml soup url = .ok (m, s)) :
    ∀ sec ∈ s, ∃ idx c, sec = mkSection url idx c
      ∧ sec.rawHtml.length ≤ 1000 + ellipsisMarker.length
      ∧ (sec.truncated = true ↔ (render c).length > 1000)
      ∧ (sec.truncated = true → sec.rawHtml = pyTake (render c) 1000 ++ ellipsisMarker)
      ∧ (sec.truncated = false → sec.rawHtml = render c) := by
  intro sec hmem
  have hs : s = extractSections soup url := parseHtml_ok_sections soup url m s h
  subst hs
  rcases mem_buildSections url 0 (selectContainers soup) sec hmem with ⟨idx, c, hcmem, heq⟩
  subst heq
  refine ⟨idx, c, rfl, ?_, ?_, ?_, ?_⟩
  · by_cases hr : (render c).length > 1000
    · simp only [mkSection, if_pos hr]
      rw [String.length_append, pyTake_length]
      have hmin : min 1000 (render c).length ≤ 1000 := Nat.min_le_left _ _
      omega
    · simp only [mkSection, if_neg hr]
      omega
  · simp only [mkSection]
    simp
  · intro ht
    simp only [mkSection] at ht ⊢
    simp at ht
    rw [if_pos ht]
  · intro ht
    simp only [mkSection] at ht ⊢
    simp at ht
    rw [if_neg (by omega : ¬ (render c).length > 1000)]

/-- The first section of the nested-container document, used as the concrete
section of the truncation witness. -/
def w5sec : Section :=
  mkSection "https://w.example/" 0 (Node.tag "main" [] [Node.tag "section" [] [Node.text "x"]])

/-- Witness for C5 at a concrete extracted section. -/
theorem rawHtml_truncation_bound_witness :
    ∃ idx c, w5sec = mkSection "https://w.example/" idx c
      ∧ w5sec.rawHtml.length ≤ 1000 + ellipsisMarker.length
      ∧ (w5sec.truncated = true ↔ (render c).length > 1000)
      ∧ (w5sec.truncated = true → w5sec.rawHtml = pyTake (render c) 1000 ++ ellipsisMarker)
      ∧ (w5sec.truncated = false → w5sec.rawHtml = render c) :=
  rawHtml_truncation_bound w3soup "https://w.example/"
    { title := "", description := "", language := "en", canonical := none }
    (extractSections w3soup "https://w.example/") (by rfl) w5sec (by decide)

/-- A single 60-character word, longer than the claimed 50-character label cap. -/
def word60 : String := String.mk (List.replicate 60 'b')

/-- Document whose only container has no heading and a one-word text longer
than 50 characters. -/
def c4soup : Soup := [Node.tag "section" [] [Node.text word60]]

/-- C4 counterexample: the claim caps every label at 50 characters, but the
heading-less fallback of line 48 joins the first 5 whitespace tokens with no
cap, so a single 60-character word yields a 60-character label. -/
theorem sectionLabel_uncapped_counterexample :
    ∃ m s, parseHtml c4soup "https://c4.example/" = .ok (m, s)
      ∧ ∃ sec ∈ s, 50 < sec.label.length := by
  refine ⟨{}, extractSections c4soup "https://c4.example/", by rfl, ?_⟩
  refine ⟨mkSection "https://c4.example/" 0 (Node.tag "section" [] [Node.text word60]),
    by decide, by decide⟩

/-- C4 amended: every extracted section is built from one of the selected
containers of its document, and takes its label from that container: when
the container's first h1/h2/h3 heading exists the label is that heading's
text capped at 50 characters (hence at most 50 characters long); otherwise
it is the first 5 whitespace tokens of the container's visible text joined
with single spaces — with no length cap — or the literal placeholder when
that text is empty. -/
theorem sectionLabel_amended (soup : Soup) (url : String) (m : Meta)
    (s : List Section) (h : parseHtml soup url = .ok (m, s)) :
    ∀ sec ∈ s, ∃ idx c, c ∈ selectContainers soup ∧ sec = mkSection url idx c
      ∧ (∀ hd, firstHeading c = some hd →
          sec.label = pyTake (getText "" true hd) 50 ∧ sec.label.length ≤ 50)
      ∧ (firstHeading c = none →
          sec.label =
            (if String.intercalate " " (List.take 5 (pySplitWs (getText "" true c))) == ""
             then "Empty Section"
             else String.intercalate " " (List.take 5 (pySplitWs (getText "" true c))))) := by
  intro sec hmem
  have hs : s = extractSections soup url := parseHtml_ok_sections soup url m s h
  subst hs
  rcases mem_buildSections url 0 (selectContainers soup) sec hmem with ⟨idx, c, hcmem, heq⟩
  subst heq
  refine ⟨idx, c, hcmem, rfl, ?_, ?_⟩
  · intro hd hhd
    constructor
    · show sectionLabel c = _
      unfold sectionLabel
      rw [hhd]
    · show (sectionLabel c).length ≤ 50
      unfold sectionLabel
      rw [hhd, pyTake_length]
      exact le_trans (Nat.min_le_left _ _) (le_refl 50)
  · intro hnone
    show sectionLabel c = _
    unfold sectionLabel
    rw [hnone]

/-- Document with a headed container for the label witness. -/
def w4soup : Soup :=
  [Node.tag "section" [] [Node.tag "h1" [] [Node.text "Hello"], Node.text "body text"]]

/-- The single section the label witness document extracts to. -/
def w4sec : Section :=
  mkSection "https://w4.example/" 0
    (Node.tag "section" [] [Node.tag "h1" [] [Node.text "Hello"], Node.text "body text"])

/-- Witness for the amended C4 at a concrete headed container. -/
theorem sectionLabel_amended_witness :
    ∃ idx c, c ∈ selectContainers w4soup ∧ w4sec = mkSection "https://w4.example/" idx c
      ∧ (∀ hd, firstHeading c = some hd →
          w4sec.label = pyTake (getText "" true hd) 50 ∧ w4sec.label.length ≤ 50)
      ∧ (firstHeading c = none →
          w4sec.label =
            (if String.intercalate " " (List.take 5 (pySplitWs (getText "" true c))) == ""
             then "Empty Section"
             else String.intercalate " " (List.take 5 (pySplitWs (getText "" true c))))) :=
  sectionLabel_amended w4soup "https://w4.example/"
    { title := "", description := "", language := "en", canonical := none }
    (extractSections w4soup "https://w4.example/") (by rfl) w4sec (by decide)

/-- Document accepted by the sufficiency heuristic whose only cue-like link
text is the upper-case MORE. -/
def cueSoup : Soup :=
  [Node.tag "html" []
    [Node.tag "head" [] [Node.tag "title" [] [Node.text "T"]],
     Node.tag "body" []
       [Node.tag "main" []
         [Node.text longText,
          Node.tag "a" [("href", "/p2")] [Node.text "MORE"]]]]]

set_option maxRecDepth 20000 in
/-- C6 counterexample: the claim makes the exact More match case-insensitive,
but line 210 compares the stripped link text to the literal More with the
case-sensitive equality, so a link reading MORE satisfies the claimed cue
predicate while the controller returns the static result and never invokes
the renderer. -/
theorem secondary_heuristic_case_counterexample :
    specCue (scrapeStatic "https://u.example/" "t0" (.success "https://f.example/" cueSoup)) = true
    ∧ scrapeSmart "https://u.example/" "t0" (.success "https://f.example/" cueSoup) (.fatal "crash") =
        scrapeStatic "https://u.example/" "t0" (.success "https://f.example/" cueSoup)
    ∧ scrapeSmart "https://u.example/" "t0" (.success "https://f.example/" cueSoup) (.fatal "crash") ≠
        scrapeWithPlaywright "https://u.example/" "t0" (.fatal "crash") :=
  ⟨by rfl, by rfl, by decide⟩

/-- C6 amended: when the primary condition does not fire, the controller
escalates exactly on the code's cue predicate: a case-insensitive substring
match of a keyword in some link text, or a case-sensitive exact match of the
stripped link text against the literal More. -/
theorem secondary_heuristic_amended (url t : String) (so : StaticOutcome) (ro : RenderOutcome)
    (hp : primaryEscalate (scrapeStatic url t so) = false) :
    scrapeSmart url t so ro =
      (if codeCue (scrapeStatic url t so) then scrapeWithPlaywright url t ro
       else scrapeStatic url t so) := by
  simp [scrapeSmart, hp]

set_option maxRecDepth 20000 in
/-- Witness for the amended C6 at a concrete sufficient document. -/
theorem secondary_heuristic_amended_witness :
    scrapeSmart "https://u.example/" "t0" (.success "https://f.example/" goodSoup) (.fatal "crash") =
      (if codeCue (scrapeStatic "https://u.example/" "t0" (.success "https://f.example/" goodSoup))
       then scrapeWithPlaywright "https://u.example/" "t0" (.fatal "crash")
       else scrapeStatic "https://u.example/" "t0" (.success "https://f.example/" goodSoup)) :=
  secondary_heuristic_amended "https://u.example/" "t0" (.success "https://f.example/" goodSoup)
    (.fatal "crash") (by rfl)

/-- Every extracted section carries the page URL it was parsed against. -/
theorem parseHtml_sourceUrl (soup : Soup) (url : String) (m : Meta) (s : List Section)
    (h : parseHtml soup url = .ok (m, s)) : ∀ sec ∈ s, sec.sourceUrl = url := by
  intro sec hmem
  have hs : s = extractSections soup url := parseHtml_ok_sections soup url m s h
  subst hs
  rcases mem_buildSections url 0 (selectContainers soup) sec hmem with ⟨idx, c, _, heq⟩
  subst heq
  rfl

/-- The lightweight fetcher always echoes the requested URL. -/
theorem scrapeStatic_url (url t : String) (so : StaticOutcome) :
    (scrapeStatic url t so).url = url := by
  cases so with
  | failure e => rfl
  | success fu soup =>
    simp only [scrapeStatic]
    cases parseHtml soup fu <;> rfl

/-- The interactive renderer always echoes the requested URL. -/
theorem scrapeWithPlaywright_url (url t : String) (ro : RenderOutcome) :
    (scrapeWithPlaywright url t ro).url = url := by
  cases ro with
  | fatal e => rfl
  | ok nw b =>
    simp only [scrapeWithPlaywright]
    cases parseHtml (runLoop b url).page.dom (runLoop b url).page.url <;> rfl

/-- The escalation controller always echoes the requested URL. -/
theorem scrapeSmart_url (url t : String) (so : StaticOutcome) (ro : RenderOutcome) :
    (scrapeSmart url t so ro).url = url := by
  simp only [scrapeSmart]
  split
  · split
    · exact scrapeWithPlaywright_url url t ro
    · exact scrapeWithPlaywright_url url t ro
  · split
    · exact scrapeWithPlaywright_url url t ro
    · exact scrapeStatic_url url t so

/-- Sections of a successful lightweight fetch point at the final URL. -/
theorem scrapeStatic_success_sourceUrl (url t finalUrl : String) (soup : Soup) :
    ∀ sec ∈ (scrapeStatic url t (.success finalUrl soup)).sections,
      sec.sourceUrl = finalUrl := by
  intro sec hmem
  simp only [scrapeStatic] at hmem
  cases hp : parseHtml soup finalUrl with
  | ok ms =>
    rw [hp] at hmem
    simp at hmem
    exact parseHtml_sourceUrl soup finalUrl ms.1 ms.2 (by rw [hp]) sec hmem
  | error e =>
    rw [hp] at hmem
    simp at hmem

/-- Sections of a rendered fetch point at the final page URL after the loop. -/
theorem scrapeWithPlaywright_ok_sourceUrl (url t : String) (nw : Option String)
    (b : PageBehavior) :
    ∀ sec ∈ (scrapeWithPlaywright url t (.ok nw b)).sections,
      sec.sourceUrl = (runLoop b url).page.url := by
  intro sec hmem
  simp only [scrapeWithPlaywright] at hmem
  cases hp : parseHtml (runLoop b url).page.dom (runLoop b url).page.url with
  | ok ms =>
    rw [hp] at hmem
    simp at hmem
    exact parseHtml_sourceUrl _ _ ms.1 ms.2 (by rw [hp]) sec hmem
  | error e =>
    rw [hp] at hmem
    simp at hmem

/-- C10: on every return path of the pipeline the document's top-level url
field is the originally requested URL, while every section's sourceUrl is
the final (post-redirect) page URL of the tier that extracted it. -/
theorem url_fields_invariant :
    (∀ (soup : Soup) (url : String) (m : Meta) (s : List Section),
        parseHtml soup url = .ok (m, s) → ∀ sec ∈ s, sec.sourceUrl = url)
    ∧ (∀ (url t : String) (so : StaticOutcome), (scrapeStatic url t so).url = url)
    ∧ (∀ (url t : String) (ro : RenderOutcome), (scrapeWithPlaywright url t ro).url = url)
    ∧ (∀ (url t : String) (so : StaticOutcome) (ro : RenderOutcome),
        (scrapeSmart url t so ro).url = url)
    ∧ (∀ (url t finalUrl : String) (soup : Soup),
        ∀ sec ∈ (scrapeStatic url t (.success finalUrl soup)).sections,
          sec.sourceUrl = finalUrl)
    ∧ (∀ (url t : String) (nw : Option String) (b : PageBehavior),
        ∀ sec ∈ (scrapeWithPlaywright url t (.ok nw b)).sections,
          sec.sourceUrl = (runLoop b url).page.url) :=
  ⟨parseHtml_sourceUrl, scrapeStatic_url, scrapeWithPlaywright_url, scrapeSmart_url,
   scrapeStatic_success_sourceUrl, scrapeWithPlaywright_ok_sourceUrl⟩

end WebScraper
